import Mathlib

/-!
Shallow embedding of `src/main.rs` of the restic-to-influxdb adapter.

The program reads newline-delimited JSON from stdin, classifies each line by
its `message_type` field, throttles `status` messages by a configured
interval, and writes points to InfluxDB.  We model:

* JSON values (`Json`) as parsed by serde_json, with numbers as rationals;
* the serde-derived decoders for `StatusMessage` and `SummaryMessage`;
* the output records `StatusMessageOut` and `SummaryMessageOut` with the
  wall-clock time as an integer number of time units;
* the per-line body of the `main` loop (`processLine`), including the
  `unwrap` panics and the `panic!("Parse error")` calls, as a step function
  on the mutable state (`print_time`);
* the whole loop (`run`) over a list of (arrival time, parsed line) pairs,
  stopping at a panic, with the InfluxDB client treated as an external sink
  that always accepts the point.
-/

namespace ResticToInflux

/-- JSON values as produced by `serde_json::from_str` into `Value`;
numbers are modelled as rationals. -/
inductive Json where
  | null : Json
  | bool (b : Bool) : Json
  | num (q : Rat) : Json
  | str (s : String) : Json
  | arr (elems : List Json) : Json
  | obj (fields : List (String × Json)) : Json

/-- Looking a field up in a JSON object (`Map::get` / `Map::remove`). -/
def lookupField (fields : List (String × Json)) (name : String) : Option Json :=
  (fields.find? (fun kv => kv.1 = name)).map (fun kv => kv.2)

/-- serde deserialization of a `u64`: the JSON value must be an integral
number in `[0, 2^64)`. -/
def decodeU64 : Json → Option Nat
  | .num q => if q.den = 1 ∧ 0 ≤ q.num ∧ q.num < 2 ^ 64 then some q.num.toNat else none
  | _ => none

/-- serde deserialization of an `f64`: any JSON number is accepted. -/
def decodeF64 : Json → Option Rat
  | .num q => some q
  | _ => none

/-- serde deserialization of a `String`. -/
def decodeStr : Json → Option String
  | .str s => some s
  | _ => none

/-- serde deserialization of a `Vec<String>`. -/
def decodeStrList : Json → Option (List String)
  | .arr xs => xs.mapM decodeStr
  | _ => none

/-- A required struct field: absent or undecodable means the whole struct
fails to deserialize. -/
def reqField (dec : Json → Option α) (fields : List (String × Json)) (name : String) :
    Option α :=
  (lookupField fields name).bind dec

/-- An `Option<T>` struct field: absent or `null` yields `none`; a present
non-null value must deserialize as `T`. -/
def optField (dec : Json → Option α) (fields : List (String × Json)) (name : String) :
    Option (Option α) :=
  match lookupField fields name with
  | none => some none
  | some .null => some none
  | some v => (dec v).map some

/-- The `struct StatusMessage` input schema (main.rs lines 28-40). -/
structure StatusMessage where
  message_type : String
  seconds_elapsed : Nat
  seconds_remaining : Option Nat
  percent_done : Rat
  total_files : Nat
  files_done : Nat
  total_bytes : Nat
  bytes_done : Nat
  error_count : Option Nat
  current_files : Option (List String)
  deriving Repr, DecidableEq

/-- serde-derived `Deserialize` for `StatusMessage`. -/
def decodeStatus : Json → Option StatusMessage
  | .obj fields => do
      let message_type ← reqField decodeStr fields "message_type"
      let seconds_elapsed ← reqField decodeU64 fields "seconds_elapsed"
      let seconds_remaining ← optField decodeU64 fields "seconds_remaining"
      let percent_done ← reqField decodeF64 fields "percent_done"
      let total_files ← reqField decodeU64 fields "total_files"
      let files_done ← reqField decodeU64 fields "files_done"
      let total_bytes ← reqField decodeU64 fields "total_bytes"
      let bytes_done ← reqField decodeU64 fields "bytes_done"
      let error_count ← optField decodeU64 fields "error_count"
      let current_files ← optField decodeStrList fields "current_files"
      pure { message_type := message_type, seconds_elapsed := seconds_elapsed,
             seconds_remaining := seconds_remaining, percent_done := percent_done,
             total_files := total_files, files_done := files_done,
             total_bytes := total_bytes, bytes_done := bytes_done,
             error_count := error_count, current_files := current_files }
  | _ => none

/-- The `struct SummaryMessage` input schema (main.rs lines 44-60). -/
structure SummaryMessage where
  message_type : String
  files_new : Nat
  files_changed : Nat
  files_unmodified : Nat
  dirs_new : Nat
  dirs_changed : Nat
  dirs_unmodified : Nat
  data_blobs : Nat
  tree_blobs : Nat
  data_added : Nat
  total_files_processed : Nat
  total_bytes_processed : Nat
  total_duration : Rat
  snapshot_id : String
  deriving Repr, DecidableEq

/-- serde-derived `Deserialize` for `SummaryMessage`. -/
def decodeSummary : Json → Option SummaryMessage
  | .obj fields => do
      let message_type ← reqField decodeStr fields "message_type"
      let files_new ← reqField decodeU64 fields "files_new"
      let files_changed ← reqField decodeU64 fields "files_changed"
      let files_unmodified ← reqField decodeU64 fields "files_unmodified"
      let dirs_new ← reqField decodeU64 fields "dirs_new"
      let dirs_changed ← reqField decodeU64 fields "dirs_changed"
      let dirs_unmodified ← reqField decodeU64 fields "dirs_unmodified"
      let data_blobs ← reqField decodeU64 fields "data_blobs"
      let tree_blobs ← reqField decodeU64 fields "tree_blobs"
      let data_added ← reqField decodeU64 fields "data_added"
      let total_files_processed ← reqField decodeU64 fields "total_files_processed"
      let total_bytes_processed ← reqField decodeU64 fields "total_bytes_processed"
      let total_duration ← reqField decodeF64 fields "total_duration"
      let snapshot_id ← reqField decodeStr fields "snapshot_id"
      pure { message_type := message_type, files_new := files_new,
             files_changed := files_changed, files_unmodified := files_unmodified,
             dirs_new := dirs_new, dirs_changed := dirs_changed,
             dirs_unmodified := dirs_unmodified, data_blobs := data_blobs,
             tree_blobs := tree_blobs, data_added := data_added,
             total_files_processed := total_files_processed,
             total_bytes_processed := total_bytes_processed,
             total_duration := total_duration, snapshot_id := snapshot_id }
  | _ => none

/-- The `struct StatusMessageOut` output record (main.rs lines 13-26): the point written to the
`status_message` measurement.  Note the source has `current_files`
commented out, so there is no such field here.  `time` is the wall clock at
emission, modelled as an integer. -/
structure StatusMessageOut where
  time : Int
  message_type : String
  seconds_elapsed : Nat
  seconds_remaining : Nat
  percent_done : Rat
  total_files : Nat
  files_done : Nat
  total_bytes : Nat
  bytes_done : Nat
  error_count : Nat
  deriving Repr, DecidableEq

/-- Building the `StatusMessageOut` value (main.rs lines 144-155):
`time` is `SystemTime::now()`, optional fields use `unwrap_or(0)`, and
`current_files` is not forwarded. -/
def mkStatusOut (now : Int) (status : StatusMessage) : StatusMessageOut :=
  { time := now
    message_type := status.message_type
    seconds_elapsed := status.seconds_elapsed
    seconds_remaining := status.seconds_remaining.getD 0
    percent_done := status.percent_done
    total_files := status.total_files
    files_done := status.files_done
    total_bytes := status.total_bytes
    bytes_done := status.bytes_done
    error_count := status.error_count.getD 0 }

/-- The `struct SummaryMessageOut` output record (main.rs lines 62-79). -/
structure SummaryMessageOut where
  time : Int
  message_type : String
  files_new : Nat
  files_changed : Nat
  files_unmodified : Nat
  dirs_new : Nat
  dirs_changed : Nat
  dirs_unmodified : Nat
  data_blobs : Nat
  tree_blobs : Nat
  data_added : Nat
  total_files_processed : Nat
  total_bytes_processed : Nat
  total_duration : Rat
  snapshot_id : String
  deriving Repr, DecidableEq

/-- Building the `SummaryMessageOut` value (main.rs lines 171-187). -/
def mkSummaryOut (now : Int) (summary : SummaryMessage) : SummaryMessageOut :=
  { time := now
    message_type := summary.message_type
    files_new := summary.files_new
    files_changed := summary.files_changed
    files_unmodified := summary.files_unmodified
    dirs_new := summary.dirs_new
    dirs_changed := summary.dirs_changed
    dirs_unmodified := summary.dirs_unmodified
    data_blobs := summary.data_blobs
    tree_blobs := summary.tree_blobs
    data_added := summary.data_added
    total_files_processed := summary.total_files_processed
    total_bytes_processed := summary.total_bytes_processed
    total_duration := summary.total_duration
    snapshot_id := summary.snapshot_id }

/-- A point handed to the InfluxDB client by `into_query`. -/
inductive Point where
  | status (p : StatusMessageOut) : Point
  | summary (p : SummaryMessageOut) : Point
  deriving Repr, DecidableEq

/-- The measurement name passed to `into_query`. -/
def Point.measurement : Point → String
  | .status _ => "status_message"
  | .summary _ => "summary_message"

/-- The timestamp carried by a point. -/
def Point.time : Point → Int
  | .status p => p.time
  | .summary p => p.time

/-- The mutable loop state: `print_time` (main.rs line 116). -/
structure State where
  print_time : Int
  deriving Repr, DecidableEq

/-- Initialization `let mut print_time = Utc::now() - Duration::from_secs(cli.interval);`
(main.rs line 116), with `start` the wall clock at startup. -/
def initState (start : Int) (interval : Nat) : State :=
  ⟨start - interval⟩

/-- One line of the debug output written by `println!`. -/
inductive LogEntry where
  | statusDebug (d : StatusMessageOut) : LogEntry
  | summaryDebug (m : SummaryMessage) : LogEntry
  deriving Repr, DecidableEq

/-- One input line after the `serde_json::from_str::<Value>` attempt:
either it failed to parse, or it parsed to a JSON value. -/
inductive ParsedLine where
  | malformed : ParsedLine
  | json (j : Json) : ParsedLine

/-- The outcome of processing one line: either the loop continues (with the
point emitted to the sink, the debug lines printed, and the new state), or
the process panics (the state records the value of `print_time` at the
moment of the panic). -/
inductive StepResult where
  | ok (emitted : Option Point) (logs : List LogEntry) (s : State) : StepResult
  | panicked (msg : String) (s : State) : StepResult
  deriving Repr, DecidableEq

/-- The state in which a step left the process. -/
def StepResult.state : StepResult → State
  | .ok _ _ s => s
  | .panicked _ s => s

/-- The body of the `for line in stdin.lock().lines()` loop
(main.rs lines 118-194) for a single line, at wall-clock time `now`:

* a line that is not valid JSON is skipped (lines 120-123);
* `message.as_object().unwrap()` panics on valid JSON that is not an
  object (line 124);
* `message.remove("message_type").unwrap().as_str().unwrap()` panics when
  the field is absent or not a string (lines 125-130);
* `"status"`: skipped while `now < print_time + interval`, otherwise
  `print_time` is set to `now` and the line is re-decoded as
  `StatusMessage` — `panic!("Parse error")` on failure — then printed and
  written as a `status_message` point (lines 132-160);
* `"summary"`: re-decoded as `SummaryMessage` — `panic!("Parse error")` on
  failure — printed and written as a `summary_message` point
  (lines 161-190);
* `"error"`: the branch body is empty (lines 191-193);
* any other discriminant falls through all branches. -/
def processLine (interval : Nat) (now : Int) (s : State) (line : ParsedLine) : StepResult :=
  match line with
  | .malformed => .ok none [] s
  | .json j =>
    match j with
    | .obj fields =>
      match lookupField fields "message_type" with
      | none => .panicked "called Option::unwrap() on a None value" s
      | some v =>
        match v with
        | .str type_ =>
          if type_ = "status" then
            if now < s.print_time + (interval : Int) then
              .ok none [] s
            else
              match decodeStatus (.obj fields) with
              | none => .panicked "Parse error" ⟨now⟩
              | some status =>
                let data := mkStatusOut now status
                .ok (some (.status data)) [.statusDebug data] ⟨now⟩
          else if type_ = "summary" then
            match decodeSummary (.obj fields) with
            | none => .panicked "Parse error" s
            | some summary =>
              .ok (some (.summary (mkSummaryOut now summary)))
                [.summaryDebug summary] s
          else
            .ok none [] s
        | _ => .panicked "called Option::unwrap() on a None value" s
    | _ => .panicked "called Option::unwrap() on a None value" s

/-- The whole loop over a finite input stream of (arrival time, line)
pairs: the points handed to the sink, in order.  A panic terminates the
process, so nothing after it is emitted. -/
def run (interval : Nat) : State → List (Int × ParsedLine) → List Point
  | _, [] => []
  | s, (now, line) :: rest =>
    match processLine interval now s line with
    | .ok none _ s1 => run interval s1 rest
    | .ok (some p) _ s1 => p :: run interval s1 rest
    | .panicked _ _ => []

/-- The timestamps of the `status_message` points among an emission list. -/
def statusTimes (points : List Point) : List Int :=
  points.filterMap (fun p =>
    match p with
    | .status d => some d.time
    | .summary _ => none)

/-! Concrete input fixtures, taken from the examples in the source comments
and the spec. -/

/-- A well-formed status object carrying only the required fields. -/
def statusFields : List (String × Json) :=
  [("message_type", .str "status"), ("seconds_elapsed", .num 34),
   ("percent_done", .num 1), ("total_files", .num 10),
   ("files_done", .num 10), ("total_bytes", .num 1000),
   ("bytes_done", .num 1000)]

/-- The `StatusMessage` value that `statusFields` decodes to. -/
def statusMsg : StatusMessage :=
  { message_type := "status", seconds_elapsed := 34, seconds_remaining := none,
    percent_done := 1, total_files := 10, files_done := 10, total_bytes := 1000,
    bytes_done := 1000, error_count := none, current_files := none }

/-- The object `statusFields` with a two-element `current_files` list added. -/
def statusFieldsCF : List (String × Json) :=
  ("current_files", .arr [.str "/a", .str "/b"]) :: statusFields

/-- A status object missing the required `files_done` field. -/
def statusFieldsNoFilesDone : List (String × Json) :=
  [("message_type", .str "status"), ("seconds_elapsed", .num 34),
   ("percent_done", .num 1), ("total_files", .num 10),
   ("total_bytes", .num 1000), ("bytes_done", .num 1000)]

/-- A status object missing the required `seconds_elapsed` field. -/
def statusFieldsNoElapsed : List (String × Json) :=
  [("message_type", .str "status"), ("percent_done", .num 1),
   ("total_files", .num 10), ("files_done", .num 10),
   ("total_bytes", .num 1000), ("bytes_done", .num 1000)]

/-- A well-formed summary object. -/
def summaryFields : List (String × Json) :=
  [("message_type", .str "summary"), ("files_new", .num 4),
   ("files_changed", .num 10), ("files_unmodified", .num 2331042),
   ("dirs_new", .num 0), ("dirs_changed", .num 15),
   ("dirs_unmodified", .num 888795), ("data_blobs", .num 28),
   ("tree_blobs", .num 14), ("data_added", .num 27699291),
   ("total_files_processed", .num 2331056),
   ("total_bytes_processed", .num 2306593302132),
   ("total_duration", .num 555), ("snapshot_id", .str "59717ddd")]

/-- The `SummaryMessage` value that `summaryFields` decodes to. -/
def summaryMsg : SummaryMessage :=
  { message_type := "summary", files_new := 4, files_changed := 10,
    files_unmodified := 2331042, dirs_new := 0, dirs_changed := 15,
    dirs_unmodified := 888795, data_blobs := 28, tree_blobs := 14,
    data_added := 27699291, total_files_processed := 2331056,
    total_bytes_processed := 2306593302132, total_duration := 555,
    snapshot_id := "59717ddd" }

/-- A summary object missing the required `snapshot_id` field. -/
def summaryFieldsNoId : List (String × Json) :=
  [("message_type", .str "summary"), ("files_new", .num 4),
   ("files_changed", .num 10), ("files_unmodified", .num 2331042),
   ("dirs_new", .num 0), ("dirs_changed", .num 15),
   ("dirs_unmodified", .num 888795), ("data_blobs", .num 28),
   ("tree_blobs", .num 14), ("data_added", .num 27699291),
   ("total_files_processed", .num 2331056),
   ("total_bytes_processed", .num 2306593302132),
   ("total_duration", .num 555)]

/-- An error object with the fields the spec names for ErrorRecord. -/
def errorFields : List (String × Json) :=
  [("message_type", .str "error"), ("during", .str "archival"),
   ("item", .str "/home/user/file")]

/-- Status lines arriving once a second for 25 seconds, starting at the
process start time 0. -/
def everySecond : List (Int × ParsedLine) :=
  (List.range 25).map (fun t => ((t : Int), .json (.obj statusFields)))

/-- Whether a JSON value is an object (`Value::as_object` succeeds). -/
def Json.isObj : Json → Bool
  | .obj _ => true
  | _ => false

/-- Whether a JSON value is a string (`Value::as_str` succeeds). -/
def Json.isStr : Json → Bool
  | .str _ => true
  | _ => false

/-! Structural lemmas about a single step and about whole runs. -/

/-- Exhaustive case analysis of one loop iteration: either the loop
continues with nothing emitted and the state untouched, or it panics with
the state untouched, or the line is an eligible status line (the state is
set to `now`, and either the re-decode panics or a status point stamped
`now` is emitted), or a summary point stamped `now` is emitted with the
state untouched. -/
lemma processLine_cases (interval : Nat) (now : Int) (s : State) (line : ParsedLine) :
    (∃ logs, processLine interval now s line = .ok none logs s) ∨
    (∃ msg, processLine interval now s line = .panicked msg s) ∨
    (s.print_time + (interval : Int) ≤ now ∧
      (∃ fields, line = .json (.obj fields) ∧
        lookupField fields "message_type" = some (.str "status")) ∧
      (processLine interval now s line = .panicked "Parse error" ⟨now⟩ ∨
        ∃ d logs, processLine interval now s line = .ok (some (.status d)) logs ⟨now⟩ ∧
          d.time = now)) ∨
    (∃ p logs, processLine interval now s line = .ok (some (.summary p)) logs s ∧
      p.time = now) := by
  cases line with
  | malformed => exact Or.inl ⟨[], rfl⟩
  | json j =>
    cases j with
    | null => exact Or.inr (Or.inl ⟨_, rfl⟩)
    | bool b => exact Or.inr (Or.inl ⟨_, rfl⟩)
    | num q => exact Or.inr (Or.inl ⟨_, rfl⟩)
    | str t => exact Or.inr (Or.inl ⟨_, rfl⟩)
    | arr xs => exact Or.inr (Or.inl ⟨_, rfl⟩)
    | obj fields =>
      cases hmt : lookupField fields "message_type" with
      | none =>
        exact Or.inr (Or.inl ⟨"called Option::unwrap() on a None value",
          by simp [processLine, hmt]⟩)
      | some v =>
        cases v with
        | null =>
          exact Or.inr (Or.inl ⟨"called Option::unwrap() on a None value",
            by simp [processLine, hmt]⟩)
        | bool b =>
          exact Or.inr (Or.inl ⟨"called Option::unwrap() on a None value",
            by simp [processLine, hmt]⟩)
        | num q =>
          exact Or.inr (Or.inl ⟨"called Option::unwrap() on a None value",
            by simp [processLine, hmt]⟩)
        | arr xs =>
          exact Or.inr (Or.inl ⟨"called Option::unwrap() on a None value",
            by simp [processLine, hmt]⟩)
        | obj kvs =>
          exact Or.inr (Or.inl ⟨"called Option::unwrap() on a None value",
            by simp [processLine, hmt]⟩)
        | str t =>
          by_cases hst : t = "status"
          · subst hst
            by_cases hel : now < s.print_time + (interval : Int)
            · exact Or.inl ⟨[], by simp [processLine, hmt, hel]⟩
            · cases hdec : decodeStatus (.obj fields) with
              | none =>
                refine Or.inr (Or.inr (Or.inl ⟨not_lt.mp hel, ⟨fields, rfl, hmt⟩, Or.inl ?_⟩))
                simp [processLine, hmt, hel, hdec]
              | some st =>
                refine Or.inr (Or.inr (Or.inl ⟨not_lt.mp hel, ⟨fields, rfl, hmt⟩,
                  Or.inr ⟨mkStatusOut now st, [.statusDebug (mkStatusOut now st)], ?_, rfl⟩⟩))
                simp [processLine, hmt, hel, hdec]
          · by_cases hsm : t = "summary"
            · subst hsm
              cases hdec : decodeSummary (.obj fields) with
              | none =>
                exact Or.inr (Or.inl ⟨"Parse error", by simp [processLine, hmt, hdec]⟩)
              | some sm =>
                refine Or.inr (Or.inr (Or.inr ⟨mkSummaryOut now sm,
                  [.summaryDebug sm], ?_, rfl⟩))
                simp [processLine, hmt, hdec]
            · exact Or.inl ⟨[], by simp [processLine, hmt, hst, hsm]⟩

/-- A step that continues with nothing emitted takes the run to the rest of
the input. -/
lemma run_cons_ok_none {interval : Nat} {now : Int} {s s1 : State} {line : ParsedLine}
    {logs : List LogEntry} {rest : List (Int × ParsedLine)}
    (h : processLine interval now s line = .ok none logs s1) :
    run interval s ((now, line) :: rest) = run interval s1 rest := by
  simp [run, h]

/-- A step that emits a point prepends it to the rest of the run. -/
lemma run_cons_ok_some {interval : Nat} {now : Int} {s s1 : State} {line : ParsedLine}
    {p : Point} {logs : List LogEntry} {rest : List (Int × ParsedLine)}
    (h : processLine interval now s line = .ok (some p) logs s1) :
    run interval s ((now, line) :: rest) = p :: run interval s1 rest := by
  simp [run, h]

/-- A step that panics terminates the process: nothing more is emitted. -/
lemma run_cons_panicked {interval : Nat} {now : Int} {s s1 : State} {line : ParsedLine}
    {msg : String} {rest : List (Int × ParsedLine)}
    (h : processLine interval now s line = .panicked msg s1) :
    run interval s ((now, line) :: rest) = [] := by
  simp [run, h]

lemma statusTimes_nil : statusTimes [] = [] := rfl

lemma statusTimes_status (d : StatusMessageOut) (ps : List Point) :
    statusTimes (.status d :: ps) = d.time :: statusTimes ps := rfl

lemma statusTimes_summary (d : SummaryMessageOut) (ps : List Point) :
    statusTimes (.summary d :: ps) = statusTimes ps := rfl

/-- Sampler invariant: along any run, the timestamps of the emitted status
points form a chain starting from the stored `print_time` in which each
element is at least `interval` past the previous one. -/
lemma run_status_chain (interval : Nat) :
    ∀ (input : List (Int × ParsedLine)) (s : State),
      List.Chain (fun a b => a + (interval : Int) ≤ b) s.print_time
        (statusTimes (run interval s input))
  | [], _ => List.Chain.nil
  | (now, line) :: rest, s => by
    rcases processLine_cases interval now s line with
      ⟨logs, h⟩ | ⟨msg, h⟩ | ⟨hel, _, h | ⟨d, logs, h, ht⟩⟩ | ⟨p, logs, h, _⟩
    · rw [run_cons_ok_none h]
      exact run_status_chain interval rest s
    · rw [run_cons_panicked h]
      exact List.Chain.nil
    · rw [run_cons_panicked h]
      exact List.Chain.nil
    · rw [run_cons_ok_some h, statusTimes_status, ht]
      exact List.Chain.cons hel (run_status_chain interval rest ⟨now⟩)
    · rw [run_cons_ok_some h, statusTimes_summary]
      exact run_status_chain interval rest s

/-- Consecutive status points in any run are at least `interval` apart. -/
lemma run_status_spacing (interval : Nat) (input : List (Int × ParsedLine)) (s : State) :
    List.Chain' (fun a b => a + (interval : Int) ≤ b) (statusTimes (run interval s input)) := by
  have h := run_status_chain interval input s
  cases hl : statusTimes (run interval s input) with
  | nil => trivial
  | cons b l =>
    rw [hl] at h
    exact (List.chain_cons.mp h).2

/-- Inversion of a successful `StatusMessage` decode: every field of the
result comes from the corresponding field decoder. -/
lemma decodeStatus_inv {fields : List (String × Json)} {st : StatusMessage}
    (h : decodeStatus (.obj fields) = some st) :
    reqField decodeStr fields "message_type" = some st.message_type ∧
    reqField decodeU64 fields "seconds_elapsed" = some st.seconds_elapsed ∧
    optField decodeU64 fields "seconds_remaining" = some st.seconds_remaining ∧
    reqField decodeF64 fields "percent_done" = some st.percent_done ∧
    reqField decodeU64 fields "total_files" = some st.total_files ∧
    reqField decodeU64 fields "files_done" = some st.files_done ∧
    reqField decodeU64 fields "total_bytes" = some st.total_bytes ∧
    reqField decodeU64 fields "bytes_done" = some st.bytes_done ∧
    optField decodeU64 fields "error_count" = some st.error_count ∧
    optField decodeStrList fields "current_files" = some st.current_files := by
  simp only [decodeStatus, bind, Option.bind_eq_some, pure, Option.some.injEq] at h
  obtain ⟨mt, hmt, se, hse, sr, hsr, pd, hpd, tf, htf, fd, hfd, tb, htb, bd, hbd,
    ec, hec, cf, hcf, hpure⟩ := h
  subst hpure
  exact ⟨hmt, hse, hsr, hpd, htf, hfd, htb, hbd, hec, hcf⟩

/-! The claims. -/

/-- C9: for every input line that fails to parse as valid JSON, the
pipeline emits no point, prints no diagnostic, leaves the state untouched,
does not terminate, and the run continues with the remaining lines exactly
as if the malformed line had not been there. -/
theorem C9_malformed_json_skipped_silently (interval : Nat) (now : Int) (s : State)
    (rest : List (Int × ParsedLine)) :
    processLine interval now s .malformed = .ok none [] s ∧
    run interval s ((now, .malformed) :: rest) = run interval s rest :=
  ⟨rfl, by simp [run, processLine]⟩

/-- C10: the emitted status point carries no `current_files` value at all:
the output record is invariant under any change of the decoded
`current_files`, every other decoded field is forwarded (optional ones
through their defaults), and a concrete status line carrying a non-empty
`current_files` list decodes with the list present yet yields exactly the
same step outcome as the same line without it. -/
theorem C10_current_files_parsed_but_dropped :
    (∀ (now : Int) (st : StatusMessage) (cf : Option (List String)),
      mkStatusOut now { st with current_files := cf } = mkStatusOut now st) ∧
    (∀ (now : Int) (st : StatusMessage),
      (mkStatusOut now st).message_type = st.message_type ∧
      (mkStatusOut now st).seconds_elapsed = st.seconds_elapsed ∧
      (mkStatusOut now st).seconds_remaining = st.seconds_remaining.getD 0 ∧
      (mkStatusOut now st).percent_done = st.percent_done ∧
      (mkStatusOut now st).total_files = st.total_files ∧
      (mkStatusOut now st).files_done = st.files_done ∧
      (mkStatusOut now st).total_bytes = st.total_bytes ∧
      (mkStatusOut now st).bytes_done = st.bytes_done ∧
      (mkStatusOut now st).error_count = st.error_count.getD 0) ∧
    decodeStatus (.obj statusFieldsCF) =
      some { statusMsg with current_files := some ["/a", "/b"] } ∧
    processLine 10 0 ⟨-10⟩ (.json (.obj statusFieldsCF)) =
      processLine 10 0 ⟨-10⟩ (.json (.obj statusFields)) :=
  ⟨fun _ _ _ => rfl,
   fun _ _ => ⟨rfl, rfl, rfl, rfl, rfl, rfl, rfl, rfl, rfl⟩,
   by decide, by decide⟩

/-- C7: the timestamp of every emitted point equals the wall clock `now` of
the step that emits it, for every input line and both record kinds; it is
never read from the payload (the clock is a parameter independent of the
line). -/
theorem C7_timestamp_is_emission_clock (interval : Nat) (now : Int) (s s1 : State)
    (line : ParsedLine) (p : Point) (logs : List LogEntry)
    (h : processLine interval now s line = .ok (some p) logs s1) :
    p.time = now := by
  rcases processLine_cases interval now s line with
    ⟨logs2, h2⟩ | ⟨msg, h2⟩ | ⟨_, _, h2 | ⟨d, logs2, h2, ht⟩⟩ | ⟨q, logs2, h2, ht⟩
  · rw [h] at h2; simp at h2
  · rw [h] at h2; simp at h2
  · rw [h] at h2; simp at h2
  · rw [h] at h2
    simp only [StepResult.ok.injEq, Option.some.injEq] at h2
    rw [h2.1]
    exact ht
  · rw [h] at h2
    simp only [StepResult.ok.injEq, Option.some.injEq] at h2
    rw [h2.1]
    exact ht

/-- C7 witness: the concrete status line emitted at clock 0 carries
timestamp 0. -/
theorem C7_witness : (Point.status (mkStatusOut 0 statusMsg)).time = 0 :=
  C7_timestamp_is_emission_clock 10 0 ⟨-10⟩ ⟨0⟩ (.json (.obj statusFields))
    (.status (mkStatusOut 0 statusMsg)) [.statusDebug (mkStatusOut 0 statusMsg)]
    (by decide)

/-- C5: a status point is emitted in a step only when the wall clock is at
least `interval` past the stored last-emission time, its timestamp is that
clock, and the stored time advances to it; along any run, consecutive
status points are at least `interval` apart; and on the concrete schedule
of one status line per second for 25 seconds with interval 10, exactly the
three points at times 0, 10 and 20 are emitted. -/
theorem C5_status_throttled_by_interval :
    (∀ (interval : Nat) (now : Int) (s s1 : State) (line : ParsedLine)
        (d : StatusMessageOut) (logs : List LogEntry),
      processLine interval now s line = .ok (some (.status d)) logs s1 →
      s.print_time + (interval : Int) ≤ now ∧ d.time = now ∧ s1 = ⟨now⟩) ∧
    (∀ (interval : Nat) (input : List (Int × ParsedLine)) (s : State),
      List.Chain' (fun a b => a + (interval : Int) ≤ b)
        (statusTimes (run interval s input))) ∧
    statusTimes (run 10 (initState 0 10) everySecond) = [0, 10, 20] := by
  refine ⟨?_, fun interval input s => run_status_spacing interval input s, by decide⟩
  intro interval now s s1 line d logs h
  rcases processLine_cases interval now s line with
    ⟨logs2, h2⟩ | ⟨msg, h2⟩ | ⟨hel, _, h2 | ⟨d2, logs2, h2, ht⟩⟩ | ⟨q, logs2, h2, ht⟩
  · rw [h] at h2; simp at h2
  · rw [h] at h2; simp at h2
  · rw [h] at h2; simp at h2
  · rw [h] at h2
    simp only [StepResult.ok.injEq, Option.some.injEq, Point.status.injEq] at h2
    exact ⟨hel, h2.1 ▸ ht, h2.2.2⟩
  · rw [h] at h2; simp at h2

/-- C5 witness: the very first step of the concrete schedule emits a
status point, so the gate, the timestamp and the state update are all
realized at clock 0 from the seeded state. -/
theorem C5_witness :
    (⟨-10⟩ : State).print_time + ((10 : Nat) : Int) ≤ 0 ∧
    (mkStatusOut 0 statusMsg).time = 0 ∧ (⟨0⟩ : State) = ⟨0⟩ :=
  C5_status_throttled_by_interval.1 10 0 ⟨-10⟩ ⟨0⟩ (.json (.obj statusFields))
    (mkStatusOut 0 statusMsg) [.statusDebug (mkStatusOut 0 statusMsg)] (by decide)

/-- C6 counterexample: the code seeds the last-emitted timestamp to the
start time minus one interval (main.rs line 116), not minus two intervals
as the claim states: with start 0 and interval 10 the seed is -10, while
start minus two intervals is -20. -/
theorem C6_counterexample :
    initState 0 10 = ⟨-10⟩ ∧ initState 0 10 ≠ ⟨0 - 2 * 10⟩ := by decide

/-- C6 (amended): the seed is start minus one interval, which still makes
the very first status line eligible and emitted for every interval,
whenever it arrives at or after the process start time and decodes. -/
theorem C6_first_status_always_emitted (interval : Nat) (start now : Int)
    (fields : List (String × Json)) (st : StatusMessage)
    (hstart : start ≤ now)
    (hmt : lookupField fields "message_type" = some (.str "status"))
    (hdec : decodeStatus (.obj fields) = some st) :
    processLine interval now (initState start interval) (.json (.obj fields)) =
      .ok (some (.status (mkStatusOut now st))) [.statusDebug (mkStatusOut now st)]
        ⟨now⟩ := by
  have hel : ¬ now < (initState start interval).print_time + (interval : Int) := by
    simp only [initState]
    omega
  simp [processLine, hmt, hel, hdec]

/-- C6 witness: at start 0 and interval 10 the first status line,
arriving at clock 0, is emitted. -/
theorem C6_witness :
    processLine 10 0 (initState 0 10) (.json (.obj statusFields)) =
      .ok (some (.status (mkStatusOut 0 statusMsg)))
        [.statusDebug (mkStatusOut 0 statusMsg)] ⟨0⟩ :=
  C6_first_status_always_emitted 10 0 0 statusFields statusMsg (by decide) rfl rfl

/-- C1 counterexample: a line that is valid JSON whose object lacks a
`message_type` field is not discarded — the `unwrap()` call raises a panic
that halts the stream, so a well-formed summary line following it is never
processed. -/
theorem C1_counterexample :
    processLine 10 0 ⟨0⟩ (.json (.obj [("foo", .num 1)])) =
      .panicked "called Option::unwrap() on a None value" ⟨0⟩ ∧
    run 10 ⟨0⟩ [(0, .json (.obj [("foo", .num 1)])),
      (1, .json (.obj summaryFields))] = [] :=
  ⟨rfl, by decide⟩

/-- C1 (amended): a line that fails JSON parsing is discarded, and so is an
object line whose `message_type` is a string other than "status" or
"summary" (including "error"); but a valid-JSON line that is not an
object, or whose object lacks the `message_type` field, or whose
`message_type` is not a string, makes the decoder panic, halting the
stream. -/
theorem C1_decoder_discard_or_panic (interval : Nat) (now : Int) (s : State) :
    processLine interval now s .malformed = .ok none [] s ∧
    (∀ fields t, lookupField fields "message_type" = some (.str t) →
      t ≠ "status" → t ≠ "summary" →
      processLine interval now s (.json (.obj fields)) = .ok none [] s) ∧
    (∀ j : Json, j.isObj = false →
      processLine interval now s (.json j) =
        .panicked "called Option::unwrap() on a None value" s) ∧
    (∀ fields, lookupField fields "message_type" = none →
      processLine interval now s (.json (.obj fields)) =
        .panicked "called Option::unwrap() on a None value" s) ∧
    (∀ fields v, lookupField fields "message_type" = some v → v.isStr = false →
      processLine interval now s (.json (.obj fields)) =
        .panicked "called Option::unwrap() on a None value" s) := by
  refine ⟨rfl, ?_, ?_, ?_, ?_⟩
  · intro fields t hmt hst hsm
    simp [processLine, hmt, hst, hsm]
  · intro j hj
    cases j <;> simp [Json.isObj] at hj <;> rfl
  · intro fields hmt
    simp [processLine, hmt]
  · intro fields v hmt hv
    cases v <;> simp [Json.isStr] at hv <;> simp [processLine, hmt]

/-- C1 witness: a full error line is discarded, while a non-object line, a
line with no `message_type`, and a line with a numeric `message_type` all
panic. -/
theorem C1_witness :
    processLine 10 0 ⟨0⟩ (.json (.obj errorFields)) = .ok none [] ⟨0⟩ ∧
    processLine 10 0 ⟨0⟩ (.json (.num 5)) =
      .panicked "called Option::unwrap() on a None value" ⟨0⟩ ∧
    processLine 10 0 ⟨0⟩ (.json (.obj [("foo", .num 1)])) =
      .panicked "called Option::unwrap() on a None value" ⟨0⟩ ∧
    processLine 10 0 ⟨0⟩ (.json (.obj [("message_type", .num 7)])) =
      .panicked "called Option::unwrap() on a None value" ⟨0⟩ :=
  ⟨(C1_decoder_discard_or_panic 10 0 ⟨0⟩).2.1 errorFields "error" rfl
      (by decide) (by decide),
   (C1_decoder_discard_or_panic 10 0 ⟨0⟩).2.2.1 (.num 5) rfl,
   (C1_decoder_discard_or_panic 10 0 ⟨0⟩).2.2.2.1 [("foo", .num 1)] rfl,
   (C1_decoder_discard_or_panic 10 0 ⟨0⟩).2.2.2.2 [("message_type", .num 7)]
      (.num 7) rfl rfl⟩

/-- C2 counterexample: a summary line missing the required `snapshot_id`
makes the process panic with "Parse error" — the run terminates and beyond
it nothing is emitted, so the well-formed summary line arriving next is
never processed, contradicting both non-fatality and continuation. -/
theorem C2_counterexample :
    processLine 10 0 ⟨-10⟩ (.json (.obj summaryFieldsNoId)) =
      .panicked "Parse error" ⟨-10⟩ ∧
    run 10 ⟨-10⟩ [(0, .json (.obj summaryFieldsNoId)),
      (1, .json (.obj summaryFields))] = [] :=
  ⟨by decide, by decide⟩

/-- C2 (amended): a line with a recognized discriminant whose required
fields are missing or malformed makes the process panic with "Parse error"
— for a status line only once it passes the sampling gate, a throttled
status line being skipped before decoding — and the panic terminates the
run, so no subsequent line is processed. -/
theorem C2_schema_decode_failure_panics :
    (∀ (interval : Nat) (now : Int) (s : State) (fields : List (String × Json)),
      lookupField fields "message_type" = some (.str "summary") →
      decodeSummary (.obj fields) = none →
      processLine interval now s (.json (.obj fields)) = .panicked "Parse error" s) ∧
    (∀ (interval : Nat) (now : Int) (s : State) (fields : List (String × Json)),
      lookupField fields "message_type" = some (.str "status") →
      ¬ now < s.print_time + (interval : Int) →
      decodeStatus (.obj fields) = none →
      processLine interval now s (.json (.obj fields)) =
        .panicked "Parse error" ⟨now⟩) ∧
    (∀ (interval : Nat) (now : Int) (s s1 : State) (line : ParsedLine)
        (msg : String) (rest : List (Int × ParsedLine)),
      processLine interval now s line = .panicked msg s1 →
      run interval s ((now, line) :: rest) = []) := by
  refine ⟨?_, ?_, ?_⟩
  · intro interval now s fields hmt hdec
    simp [processLine, hmt, hdec]
  · intro interval now s fields hmt hel hdec
    simp [processLine, hmt, hel, hdec]
  · intro interval now s s1 line msg rest h
    exact run_cons_panicked h

/-- C2 witness: the bad summary line panics, an eligible bad status line
panics, and a run starting with a panicking line emits nothing. -/
theorem C2_witness :
    processLine 10 0 ⟨-10⟩ (.json (.obj summaryFieldsNoId)) =
      .panicked "Parse error" ⟨-10⟩ ∧
    processLine 10 5 ⟨-10⟩ (.json (.obj statusFieldsNoElapsed)) =
      .panicked "Parse error" ⟨5⟩ ∧
    run 10 ⟨-10⟩ [(0, .json (.obj summaryFieldsNoId)),
      (1, .json (.obj summaryFields))] = [] :=
  ⟨C2_schema_decode_failure_panics.1 10 0 ⟨-10⟩ summaryFieldsNoId rfl rfl,
   C2_schema_decode_failure_panics.2.1 10 5 ⟨-10⟩ statusFieldsNoElapsed rfl
      (by decide) rfl,
   C2_schema_decode_failure_panics.2.2 10 0 ⟨-10⟩ ⟨-10⟩
      (.json (.obj summaryFieldsNoId)) "Parse error"
      [(1, .json (.obj summaryFields))] (by decide)⟩

/-- C3 counterexample: a fully-populated error line is recognized and then
silently dropped — the step emits no point at all, so no `error_message`
point is ever produced. -/
theorem C3_counterexample :
    processLine 10 0 ⟨0⟩ (.json (.obj errorFields)) = .ok none [] ⟨0⟩ := by
  decide

/-- C3 (amended): every summary line that decodes successfully bypasses the
sampler — it is emitted to the `summary_message` measurement with the
sampler state untouched, even when identical lines arrive back-to-back at
the same instant — while error lines are recognized but dropped with
nothing emitted (the code has no `error_message` measurement). -/
theorem C3_summary_bypasses_sampler :
    (∀ (interval : Nat) (now : Int) (s : State) (fields : List (String × Json))
        (sm : SummaryMessage),
      lookupField fields "message_type" = some (.str "summary") →
      decodeSummary (.obj fields) = some sm →
      processLine interval now s (.json (.obj fields)) =
        .ok (some (.summary (mkSummaryOut now sm))) [.summaryDebug sm] s ∧
      (Point.summary (mkSummaryOut now sm)).measurement = "summary_message" ∧
      run interval s [(now, .json (.obj fields)), (now, .json (.obj fields))] =
        [.summary (mkSummaryOut now sm), .summary (mkSummaryOut now sm)]) ∧
    (∀ (interval : Nat) (now : Int) (s : State) (fields : List (String × Json)),
      lookupField fields "message_type" = some (.str "error") →
      processLine interval now s (.json (.obj fields)) = .ok none [] s) := by
  constructor
  · intro interval now s fields sm hmt hdec
    have hstep : processLine interval now s (.json (.obj fields)) =
        .ok (some (.summary (mkSummaryOut now sm))) [.summaryDebug sm] s := by
      simp [processLine, hmt, hdec]
    refine ⟨hstep, rfl, ?_⟩
    rw [run_cons_ok_some hstep, run_cons_ok_some hstep]
    rfl
  · intro interval now s fields hmt
    simp [processLine, hmt]

/-- C3 witness: the concrete summary line is emitted twice when arriving
twice at the same instant, and the concrete error line is dropped. -/
theorem C3_witness :
    (processLine 10 0 ⟨-10⟩ (.json (.obj summaryFields)) =
      .ok (some (.summary (mkSummaryOut 0 summaryMsg))) [.summaryDebug summaryMsg]
        ⟨-10⟩ ∧
     (Point.summary (mkSummaryOut 0 summaryMsg)).measurement = "summary_message" ∧
     run 10 ⟨-10⟩ [(0, .json (.obj summaryFields)), (0, .json (.obj summaryFields))] =
      [.summary (mkSummaryOut 0 summaryMsg), .summary (mkSummaryOut 0 summaryMsg)]) ∧
    processLine 10 0 ⟨-10⟩ (.json (.obj errorFields)) = .ok none [] ⟨-10⟩ :=
  ⟨C3_summary_bypasses_sampler.1 10 0 ⟨-10⟩ summaryFields summaryMsg rfl rfl,
   C3_summary_bypasses_sampler.2 10 0 ⟨-10⟩ errorFields rfl⟩

/-- C4 counterexample: a status line missing `files_done` does not
normalize with a default — the typed decode fails, and once the line
passes the sampling gate the process panics instead of emitting. -/
theorem C4_counterexample :
    decodeStatus (.obj statusFieldsNoFilesDone) = none ∧
    processLine 10 0 ⟨-10⟩ (.json (.obj statusFieldsNoFilesDone)) =
      .panicked "Parse error" ⟨0⟩ :=
  ⟨by decide, by decide⟩

/-- C4 (amended): only `seconds_remaining`, `error_count` and
`current_files` are optional for a status line — when absent the first two
resolve to 0 in the emitted record and the decode still succeeds, as on
the concrete line below — but `files_done` and `bytes_done` are required:
a status object lacking either fails to decode; and `current_files` is
never normalized into the output, which is invariant under it. -/
theorem C4_status_defaults_and_required :
    (∀ (now : Int) (fields : List (String × Json)) (st : StatusMessage),
      decodeStatus (.obj fields) = some st →
      (lookupField fields "seconds_remaining" = none →
        (mkStatusOut now st).seconds_remaining = 0) ∧
      (lookupField fields "error_count" = none →
        (mkStatusOut now st).error_count = 0)) ∧
    (∀ fields : List (String × Json), lookupField fields "files_done" = none →
      decodeStatus (.obj fields) = none) ∧
    (∀ fields : List (String × Json), lookupField fields "bytes_done" = none →
      decodeStatus (.obj fields) = none) ∧
    decodeStatus (.obj statusFields) = some statusMsg ∧
    (mkStatusOut 0 statusMsg).seconds_remaining = 0 ∧
    (mkStatusOut 0 statusMsg).error_count = 0 ∧
    (∀ (now : Int) (st : StatusMessage) (cf : Option (List String)),
      mkStatusOut now { st with current_files := cf } = mkStatusOut now st) := by
  refine ⟨?_, ?_, ?_, by decide, rfl, rfl, fun _ _ _ => rfl⟩
  · intro now fields st h
    obtain ⟨-, -, hsr, -, -, -, -, -, hec, -⟩ := decodeStatus_inv h
    constructor
    · intro habs
      rw [optField, habs] at hsr
      simp only [Option.some.injEq] at hsr
      simp [mkStatusOut, ← hsr]
    · intro habs
      rw [optField, habs] at hec
      simp only [Option.some.injEq] at hec
      simp [mkStatusOut, ← hec]
  · intro fields habs
    cases hd : decodeStatus (.obj fields) with
    | none => rfl
    | some st =>
      obtain ⟨-, -, -, -, -, hfd, -, -, -, -⟩ := decodeStatus_inv hd
      rw [reqField, habs] at hfd
      cases hfd
  · intro fields habs
    cases hd : decodeStatus (.obj fields) with
    | none => rfl
    | some st =>
      obtain ⟨-, -, -, -, -, -, -, hbd, -, -⟩ := decodeStatus_inv hd
      rw [reqField, habs] at hbd
      cases hbd

/-- C4 witness: on the concrete status line without optional fields the
defaults are realized, and the concrete lines missing `files_done` or
`bytes_done` fail to decode. -/
theorem C4_witness :
    (mkStatusOut 0 statusMsg).seconds_remaining = 0 ∧
    (mkStatusOut 0 statusMsg).error_count = 0 ∧
    decodeStatus (.obj statusFieldsNoFilesDone) = none :=
  ⟨(C4_status_defaults_and_required.1 0 statusFields statusMsg (by decide)).1 rfl,
   (C4_status_defaults_and_required.1 0 statusFields statusMsg (by decide)).2 rfl,
   C4_status_defaults_and_required.2.1 statusFieldsNoFilesDone rfl⟩

/-- C8 counterexample: an eligible status line whose required
`seconds_elapsed` field is missing mutates `print_time` from -10 to the
clock 5 even though no status point results from the step (the step
panics), contradicting mutation only after an actual emission. -/
theorem C8_counterexample :
    processLine 10 5 ⟨-10⟩ (.json (.obj statusFieldsNoElapsed)) =
      .panicked "Parse error" ⟨5⟩ ∧
    (StepResult.panicked "Parse error" ⟨5⟩).state = ⟨5⟩ ∧
    (⟨5⟩ : State) ≠ (⟨-10⟩ : State) :=
  ⟨by decide, rfl, by decide⟩

/-- C8 (amended): `print_time` is changed only by the status branch and
only when the eligibility gate passes; it is then set to the wall clock of
the step *before* the decode and the emission, so an eligible status line
that fails schema decode also mutates it although no point is emitted. -/
theorem C8_sampler_state_mutation (interval : Nat) (now : Int) (s : State)
    (line : ParsedLine) :
    (processLine interval now s line).state = s ∨
    ((processLine interval now s line).state = ⟨now⟩ ∧
      s.print_time + (interval : Int) ≤ now ∧
      ∃ fields, line = .json (.obj fields) ∧
        lookupField fields "message_type" = some (.str "status")) := by
  rcases processLine_cases interval now s line with
    ⟨logs, h⟩ | ⟨msg, h⟩ | ⟨hel, hline, h | ⟨d, logs, h, ht⟩⟩ | ⟨p, logs, h, ht⟩
  · exact Or.inl (by rw [h]; rfl)
  · exact Or.inl (by rw [h]; rfl)
  · exact Or.inr ⟨by rw [h]; rfl, hel, hline⟩
  · exact Or.inr ⟨by rw [h]; rfl, hel, hline⟩
  · exact Or.inl (by rw [h]; rfl)

end ResticToInflux
